import Mathlib

/-!
Shallow embedding of the scoring core of `src/streamlit_app.py`
(SSPI — Student Stress & Performance Insights).

The embedded functions are `CLIP`, `perf_component`, `stress_component`,
`weighted_score`, `traffic_light`, and the app-level composite computation
(`perf_score`, `stress_score`, `overall` from the "Input & Hasil" section).
Python floats are idealised as real numbers (the component formulas use
`np.exp`, so ℝ is needed throughout).
Python dictionaries are embedded as association lists in insertion order, and
Python exceptions (`KeyError` from a missing dictionary key,
`ZeroDivisionError` from division by zero) as an `Except` error type.
A NaN-aware variant of `perf_component` embeds IEEE NaN as `Option.none`,
with `none`-propagation mirroring NaN propagation through `np.exp`,
arithmetic and `np.clip`.
-/

namespace SSPI

/-- Python runtime errors that the scoring code can raise:
`KeyError` from indexing a missing dictionary key, and `ZeroDivisionError`
from dividing by a zero total weight. -/
inductive PyErr where
  | keyError
  | zeroDivisionError
deriving DecidableEq

/-- The six named metrics of the app: the input dictionary `vals` and the
output dictionaries of `perf_component` and `stress_component` all have
exactly these keys. Generic in the value type so the same shape serves
ℝ-valued scores and `Option ℝ`-valued (NaN-aware) scores. -/
structure Metrics (α : Type) where
  StudyHours : α
  SleepHours : α
  Attendance : α
  ClassSize : α
  SchoolSupport : α
  Workload : α

/-- `np.clip(x, lo, hi)`, i.e. `min(max(x, lo), hi)` on real inputs. -/
noncomputable def npClip (x lo hi : ℝ) : ℝ := min (max x lo) hi

/-- `CLIP = lambda x: float(np.clip(x, 0.0, 100.0))` (line 128). -/
noncomputable def CLIP (x : ℝ) : ℝ := npClip x 0 100

/-- `OPT["StudyHours"]` (line 127). -/
noncomputable def OPT_StudyHours : ℝ := 3.0

/-- `OPT["SleepHours"]` (line 127). -/
noncomputable def OPT_SleepHours : ℝ := 9.5

/-- `OPT["ClassSize"]` (line 127; present in the table, unused by the
component formulas, which hard-code the 15..45 span). -/
noncomputable def OPT_ClassSize : ℝ := 28.0

/-- `perf_component` (lines 130-138): the six performance sub-scores,
each passed through `CLIP`. -/
noncomputable def perf_component (v : Metrics ℝ) : Metrics ℝ :=
  let sh := 100 * Real.exp (-((v.StudyHours - OPT_StudyHours) ^ 2) / (2 * (1.5 : ℝ) ^ 2))
  let sl := 100 * Real.exp (-((v.SleepHours - OPT_SleepHours) ^ 2) / (2 * (1.0 : ℝ) ^ 2))
  let cs := 100 * (1 - npClip ((v.ClassSize - 15) / (45 - 15)) 0 1)
  let wl := 100 * (1 - v.Workload / 100)
  { StudyHours := CLIP sh, SleepHours := CLIP sl, Attendance := CLIP v.Attendance,
    ClassSize := CLIP cs, SchoolSupport := CLIP v.SchoolSupport, Workload := CLIP wl }

/-- `stress_component` (lines 140-149): the six stress-health sub-scores;
`StudyHours` is `study_good = CLIP(100 - sh)` where `sh` is the stress term. -/
noncomputable def stress_component (v : Metrics ℝ) : Metrics ℝ :=
  let sh := 100 * (1 - Real.exp (-((v.StudyHours - OPT_StudyHours) ^ 2) / (2 * (1.5 : ℝ) ^ 2)))
  let sl := 100 * (1 - npClip (|v.SleepHours - OPT_SleepHours| / 2.0) 0 1)
  let cs := 100 * (1 - npClip ((v.ClassSize - 15) / (45 - 15)) 0 1)
  let wl := 100 * (1 - v.Workload / 100)
  let study_good := CLIP (100 - sh)
  { StudyHours := study_good, SleepHours := CLIP sl, Attendance := CLIP v.Attendance,
    ClassSize := CLIP cs, SchoolSupport := CLIP v.SchoolSupport, Workload := CLIP wl }

/-- The generator `sum(c[k]*weights[k] for k in weights)` inside
`weighted_score` (line 152): iterates over the weight dictionary in order,
raising `KeyError` as soon as a key is missing from `c`. -/
def sumProducts (c : List (String × ℝ)) : List (String × ℝ) → Except PyErr ℝ
  | [] => Except.ok 0
  | (k, wt) :: rest =>
    match List.lookup k c with
    | none => Except.error PyErr.keyError
    | some x =>
      match sumProducts c rest with
      | Except.error e => Except.error e
      | Except.ok s => Except.ok (x * wt + s)

/-- `sum(weights.values())` (line 152). -/
def totalWeight (w : List (String × ℝ)) : ℝ :=
  (w.map Prod.snd).sum

/-- `weighted_score(c, weights)` (lines 151-152):
`sum(c[k]*weights[k] for k in weights) / sum(weights.values())`.
The numerator generator is evaluated first (so a missing key raises
`KeyError` before the division); a zero total weight then raises
`ZeroDivisionError`. -/
noncomputable def weighted_score (c w : List (String × ℝ)) : Except PyErr ℝ :=
  match sumProducts c w with
  | Except.error e => Except.error e
  | Except.ok n =>
    if totalWeight w = 0 then Except.error PyErr.zeroDivisionError
    else Except.ok (n / totalWeight w)

/-- The value `weighted_score` returns on its success path: the weighted sum
of the sub-scores found in `c` divided by the weight total. Agrees with
`weighted_score` whenever every weight key is present and the total is
nonzero (lemma `weighted_score_app` below instantiates this for the app's
calls). -/
noncomputable def weighted_value (c w : List (String × ℝ)) : ℝ :=
  (w.map (fun p => (List.lookup p.1 c).getD 0 * p.2)).sum / totalWeight w

/-- Weight rescaling by a constant, used to state weight-scale invariance:
the mapping `{k: a * weights[k] for k in weights}`. -/
def scaleWeights (a : ℝ) (w : List (String × ℝ)) : List (String × ℝ) :=
  w.map (fun p => (p.1, a * p.2))

/-- `traffic_light(score)` (lines 154-157). -/
noncomputable def traffic_light (score : ℝ) : String :=
  if score ≥ 75 then "Baik"
  else if score ≥ 50 then "Perlu Perhatian"
  else "Risiko Tinggi"

/-- A component result as the association list the Python dictionary holds,
in the insertion order of lines 137-138 / 148-149. -/
def Metrics.toPairs (s : Metrics ℝ) : List (String × ℝ) :=
  [("StudyHours", s.StudyHours), ("SleepHours", s.SleepHours),
   ("Attendance", s.Attendance), ("ClassSize", s.ClassSize),
   ("SchoolSupport", s.SchoolSupport), ("Workload", s.Workload)]

/-- `weights = {k: 1 for k in vals}` (line 235). -/
def appWeights : List (String × ℝ) :=
  [("StudyHours", 1), ("SleepHours", 1), ("Attendance", 1),
   ("ClassSize", 1), ("SchoolSupport", 1), ("Workload", 1)]

/-- `perf_score = weighted_score(perf, weights)` (line 236), on the success
path the call takes in the app (all six keys present, total weight 6). -/
noncomputable def perf_score (v : Metrics ℝ) : ℝ :=
  weighted_value (perf_component v).toPairs appWeights

/-- `stress_score = weighted_score(stress, weights)` (line 237). -/
noncomputable def stress_score (v : Metrics ℝ) : ℝ :=
  weighted_value (stress_component v).toPairs appWeights

/-- `overall = min(perf_score, stress_score)` (line 238). -/
noncomputable def overall (v : Metrics ℝ) : ℝ :=
  min (perf_score v) (stress_score v)

/-- NaN-aware `perf_component`: each metric value is `some x` for an ordinary
float `x` or `none` for IEEE NaN. Each sub-score depends on exactly one input
value, and NaN propagates through subtraction, squaring, division, `np.exp`,
multiplication and `np.clip` (numpy clip returns NaN on NaN input), so each
field is the `Option.map` of the corresponding real formula of lines 130-138. -/
noncomputable def perf_component_nan (v : Metrics (Option ℝ)) : Metrics (Option ℝ) :=
  { StudyHours := v.StudyHours.map (fun x =>
      CLIP (100 * Real.exp (-((x - OPT_StudyHours) ^ 2) / (2 * (1.5 : ℝ) ^ 2)))),
    SleepHours := v.SleepHours.map (fun x =>
      CLIP (100 * Real.exp (-((x - OPT_SleepHours) ^ 2) / (2 * (1.0 : ℝ) ^ 2)))),
    Attendance := v.Attendance.map (fun x => CLIP x),
    ClassSize := v.ClassSize.map (fun x =>
      CLIP (100 * (1 - npClip ((x - 15) / (45 - 15)) 0 1))),
    SchoolSupport := v.SchoolSupport.map (fun x => CLIP x),
    Workload := v.Workload.map (fun x => CLIP (100 * (1 - x / 100))) }

/-- An input whose `StudyHours` metric is NaN and whose other metrics are the
app defaults of lines 206-222. -/
noncomputable def nanInput : Metrics (Option ℝ) :=
  { StudyHours := none, SleepHours := some 9.5, Attendance := some 95,
    ClassSize := some 28, SchoolSupport := some 70, Workload := some 50 }

/-- An input all six of whose metric values are NaN. -/
def nanAll : Metrics (Option ℝ) :=
  { StudyHours := none, SleepHours := none, Attendance := none,
    ClassSize := none, SchoolSupport := none, Workload := none }

/-- A concrete input with `ClassSize` at the good end of its 15..45 span and
`Workload` at the good end of its 0..100 span. -/
noncomputable def exLow : Metrics ℝ :=
  { StudyHours := 3, SleepHours := 9.5, Attendance := 95,
    ClassSize := 10, SchoolSupport := 70, Workload := 0 }

/-- A concrete input with `ClassSize` at the bad end of its span and
`Workload` at the bad end of its span. -/
noncomputable def exHigh : Metrics ℝ :=
  { StudyHours := 3, SleepHours := 9.5, Attendance := 95,
    ClassSize := 45, SchoolSupport := 70, Workload := 100 }

/-- A concrete input dominated by `exB` on every monotone metric. -/
noncomputable def exA : Metrics ℝ :=
  { StudyHours := 3, SleepHours := 9.5, Attendance := 80,
    ClassSize := 20, SchoolSupport := 60, Workload := 30 }

/-- A concrete input dominating `exA` on every monotone metric. -/
noncomputable def exB : Metrics ℝ :=
  { StudyHours := 3, SleepHours := 9.5, Attendance := 90,
    ClassSize := 30, SchoolSupport := 80, Workload := 60 }

/-! ## Helper lemmas -/

theorem CLIP_nonneg (x : ℝ) : 0 ≤ CLIP x :=
  le_min (le_max_right x 0) (by norm_num)

theorem CLIP_le_100 (x : ℝ) : CLIP x ≤ 100 :=
  min_le_right _ _

theorem npClip_mono {x y : ℝ} (lo hi : ℝ) (h : x ≤ y) : npClip x lo hi ≤ npClip y lo hi :=
  min_le_min (max_le_max h le_rfl) le_rfl

theorem CLIP_mono {x y : ℝ} (h : x ≤ y) : CLIP x ≤ CLIP y :=
  npClip_mono 0 100 h

theorem CLIP_eq_100 {x : ℝ} (h : 100 ≤ x) : CLIP x = 100 := by
  unfold CLIP npClip
  rw [max_eq_left (le_trans (by norm_num) h), min_eq_right h]

theorem CLIP_eq_0 {x : ℝ} (h : x ≤ 0) : CLIP x = 0 := by
  unfold CLIP npClip
  rw [max_eq_right h, min_eq_left (by norm_num)]

/-- Every field of a `perf_component` result is a `CLIP` application, hence
lies in [0, 100]. -/
theorem perf_bounds (v : Metrics ℝ) :
    (0 ≤ (perf_component v).StudyHours ∧ (perf_component v).StudyHours ≤ 100) ∧
    (0 ≤ (perf_component v).SleepHours ∧ (perf_component v).SleepHours ≤ 100) ∧
    (0 ≤ (perf_component v).Attendance ∧ (perf_component v).Attendance ≤ 100) ∧
    (0 ≤ (perf_component v).ClassSize ∧ (perf_component v).ClassSize ≤ 100) ∧
    (0 ≤ (perf_component v).SchoolSupport ∧ (perf_component v).SchoolSupport ≤ 100) ∧
    (0 ≤ (perf_component v).Workload ∧ (perf_component v).Workload ≤ 100) :=
  ⟨⟨CLIP_nonneg _, CLIP_le_100 _⟩, ⟨CLIP_nonneg _, CLIP_le_100 _⟩,
   ⟨CLIP_nonneg _, CLIP_le_100 _⟩, ⟨CLIP_nonneg _, CLIP_le_100 _⟩,
   ⟨CLIP_nonneg _, CLIP_le_100 _⟩, ⟨CLIP_nonneg _, CLIP_le_100 _⟩⟩

/-- Every field of a `stress_component` result is a `CLIP` application, hence
lies in [0, 100]. -/
theorem stress_bounds (v : Metrics ℝ) :
    (0 ≤ (stress_component v).StudyHours ∧ (stress_component v).StudyHours ≤ 100) ∧
    (0 ≤ (stress_component v).SleepHours ∧ (stress_component v).SleepHours ≤ 100) ∧
    (0 ≤ (stress_component v).Attendance ∧ (stress_component v).Attendance ≤ 100) ∧
    (0 ≤ (stress_component v).ClassSize ∧ (stress_component v).ClassSize ≤ 100) ∧
    (0 ≤ (stress_component v).SchoolSupport ∧ (stress_component v).SchoolSupport ≤ 100) ∧
    (0 ≤ (stress_component v).Workload ∧ (stress_component v).Workload ≤ 100) :=
  ⟨⟨CLIP_nonneg _, CLIP_le_100 _⟩, ⟨CLIP_nonneg _, CLIP_le_100 _⟩,
   ⟨CLIP_nonneg _, CLIP_le_100 _⟩, ⟨CLIP_nonneg _, CLIP_le_100 _⟩,
   ⟨CLIP_nonneg _, CLIP_le_100 _⟩, ⟨CLIP_nonneg _, CLIP_le_100 _⟩⟩

/-! ## Claim theorems -/

/-- Claim C1: every per-indicator sub-score produced by `perf_component` and
`stress_component` lies in [0, 100] for every input mapping of real metric
values; the final `CLIP` saturates values beyond the benchmark span. -/
theorem c1_boundedness (v : Metrics ℝ) :
    ((0 ≤ (perf_component v).StudyHours ∧ (perf_component v).StudyHours ≤ 100) ∧
     (0 ≤ (perf_component v).SleepHours ∧ (perf_component v).SleepHours ≤ 100) ∧
     (0 ≤ (perf_component v).Attendance ∧ (perf_component v).Attendance ≤ 100) ∧
     (0 ≤ (perf_component v).ClassSize ∧ (perf_component v).ClassSize ≤ 100) ∧
     (0 ≤ (perf_component v).SchoolSupport ∧ (perf_component v).SchoolSupport ≤ 100) ∧
     (0 ≤ (perf_component v).Workload ∧ (perf_component v).Workload ≤ 100)) ∧
    ((0 ≤ (stress_component v).StudyHours ∧ (stress_component v).StudyHours ≤ 100) ∧
     (0 ≤ (stress_component v).SleepHours ∧ (stress_component v).SleepHours ≤ 100) ∧
     (0 ≤ (stress_component v).Attendance ∧ (stress_component v).Attendance ≤ 100) ∧
     (0 ≤ (stress_component v).ClassSize ∧ (stress_component v).ClassSize ≤ 100) ∧
     (0 ≤ (stress_component v).SchoolSupport ∧ (stress_component v).SchoolSupport ≤ 100) ∧
     (0 ≤ (stress_component v).Workload ∧ (stress_component v).Workload ≤ 100)) :=
  ⟨perf_bounds v, stress_bounds v⟩

/-- Claim C10: for every input mapping, the `StudyHours` sub-score of
`stress_component` equals the `StudyHours` sub-score of `perf_component`,
because `100 - 100*(1 - exp t) = 100 * exp t`. -/
theorem c10_study_hours_agree (v : Metrics ℝ) :
    (stress_component v).StudyHours = (perf_component v).StudyHours := by
  show CLIP (100 - 100 * (1 - Real.exp (-((v.StudyHours - OPT_StudyHours) ^ 2) /
      (2 * (1.5 : ℝ) ^ 2)))) =
    CLIP (100 * Real.exp (-((v.StudyHours - OPT_StudyHours) ^ 2) / (2 * (1.5 : ℝ) ^ 2)))
  congr 1
  ring

/-- Claim C9: `traffic_light` totally partitions the real line: it returns
"Baik" iff the score is at least 75, "Perlu Perhatian" iff the score is in
[50, 75), and "Risiko Tinggi" iff the score is below 50. -/
theorem c9_traffic_light (s : ℝ) :
    (traffic_light s = "Baik" ↔ 75 ≤ s) ∧
    (traffic_light s = "Perlu Perhatian" ↔ 50 ≤ s ∧ s < 75) ∧
    (traffic_light s = "Risiko Tinggi" ↔ s < 50) := by
  unfold traffic_light
  split_ifs with h1 h2
  · exact ⟨⟨fun _ => h1, fun _ => rfl⟩,
      ⟨fun h => absurd h (by decide), fun h => absurd h1 (not_le.mpr h.2)⟩,
      ⟨fun h => absurd h (by decide), fun h => absurd h1 (not_le.mpr (by linarith))⟩⟩
  · exact ⟨⟨fun h => absurd h (by decide), fun h => absurd h h1⟩,
      ⟨fun _ => ⟨h2, not_le.mp h1⟩, fun _ => rfl⟩,
      ⟨fun h => absurd h (by decide), fun h => absurd h2 (not_le.mpr h)⟩⟩
  · exact ⟨⟨fun h => absurd h (by decide), fun h => absurd h h1⟩,
      ⟨fun h => absurd h (by decide), fun h => absurd h.1 h2⟩,
      ⟨fun _ => not_le.mp h2, fun _ => rfl⟩⟩

/-- Claim C5: for the lower-is-better linear sub-scores of `perf_component`
(`ClassSize`, benchmark span 15..45, and `Workload`, span 0..100), any value
at or below the ideal endpoint scores exactly 100 and any value at or above
the worst endpoint scores exactly 0. -/
theorem c5_saturation (v : Metrics ℝ) :
    (v.ClassSize ≤ 15 → (perf_component v).ClassSize = 100) ∧
    (45 ≤ v.ClassSize → (perf_component v).ClassSize = 0) ∧
    (v.Workload ≤ 0 → (perf_component v).Workload = 100) ∧
    (100 ≤ v.Workload → (perf_component v).Workload = 0) := by
  refine ⟨fun hc => ?_, fun hc => ?_, fun hw => ?_, fun hw => ?_⟩
  · show CLIP (100 * (1 - npClip ((v.ClassSize - 15) / (45 - 15)) 0 1)) = 100
    have hx : (v.ClassSize - 15) / (45 - 15) ≤ 0 :=
      (div_le_iff₀ (by norm_num)).mpr (by linarith)
    have h1 : npClip ((v.ClassSize - 15) / (45 - 15)) 0 1 = 0 := by
      unfold npClip
      rw [max_eq_right hx, min_eq_left (by norm_num)]
    rw [h1]
    exact CLIP_eq_100 (by norm_num)
  · show CLIP (100 * (1 - npClip ((v.ClassSize - 15) / (45 - 15)) 0 1)) = 0
    have hx : 1 ≤ (v.ClassSize - 15) / (45 - 15) :=
      (le_div_iff₀ (by norm_num)).mpr (by linarith)
    have h1 : npClip ((v.ClassSize - 15) / (45 - 15)) 0 1 = 1 := by
      unfold npClip
      rw [max_eq_left (le_trans zero_le_one hx), min_eq_right hx]
    rw [h1]
    exact CLIP_eq_0 (by norm_num)
  · show CLIP (100 * (1 - v.Workload / 100)) = 100
    have hx : v.Workload / 100 ≤ 0 := (div_le_iff₀ (by norm_num)).mpr (by linarith)
    exact CLIP_eq_100 (by linarith)
  · show CLIP (100 * (1 - v.Workload / 100)) = 0
    have hx : 1 ≤ v.Workload / 100 := (le_div_iff₀ (by norm_num)).mpr (by linarith)
    exact CLIP_eq_0 (by linarith)

/-- Witness for C5: at `ClassSize = 10` (below the ideal 15) the sub-score is
100; at `ClassSize = 45` it is 0; at `Workload = 0` the sub-score is 100; at
`Workload = 100` it is 0. -/
theorem c5_saturation_witness :
    (perf_component exLow).ClassSize = 100 ∧ (perf_component exHigh).ClassSize = 0 ∧
    (perf_component exLow).Workload = 100 ∧ (perf_component exHigh).Workload = 0 :=
  ⟨(c5_saturation exLow).1 (by norm_num [exLow]),
   (c5_saturation exHigh).2.1 (by norm_num [exHigh]),
   (c5_saturation exLow).2.2.1 (by norm_num [exLow]),
   (c5_saturation exHigh).2.2.2 (by norm_num [exHigh])⟩

/-- Claim C6: the lower-is-better linear sub-scores of `perf_component`
(`ClassSize` and `Workload`) are non-increasing in their input value, and the
higher-is-better pass-through sub-scores (`Attendance`, `SchoolSupport`) are
non-decreasing. -/
theorem c6_monotonicity (v1 v2 : Metrics ℝ) :
    (v1.ClassSize ≤ v2.ClassSize →
      (perf_component v2).ClassSize ≤ (perf_component v1).ClassSize) ∧
    (v1.Workload ≤ v2.Workload →
      (perf_component v2).Workload ≤ (perf_component v1).Workload) ∧
    (v1.Attendance ≤ v2.Attendance →
      (perf_component v1).Attendance ≤ (perf_component v2).Attendance) ∧
    (v1.SchoolSupport ≤ v2.SchoolSupport →
      (perf_component v1).SchoolSupport ≤ (perf_component v2).SchoolSupport) := by
  refine ⟨fun h => ?_, fun h => ?_, fun h => CLIP_mono h, fun h => CLIP_mono h⟩
  · show CLIP (100 * (1 - npClip ((v2.ClassSize - 15) / (45 - 15)) 0 1)) ≤
      CLIP (100 * (1 - npClip ((v1.ClassSize - 15) / (45 - 15)) 0 1))
    apply CLIP_mono
    have hm := npClip_mono 0 1
      ((div_le_div_iff_of_pos_right (by norm_num : (0:ℝ) < 45 - 15)).mpr
        (by linarith : v1.ClassSize - 15 ≤ v2.ClassSize - 15))
    linarith
  · show CLIP (100 * (1 - v2.Workload / 100)) ≤ CLIP (100 * (1 - v1.Workload / 100))
    apply CLIP_mono
    have hm := (div_le_div_iff_of_pos_right (by norm_num : (0:ℝ) < 100)).mpr h
    linarith

/-- Witness for C6: with `exA` dominated by `exB` on `ClassSize`, `Workload`,
`Attendance` and `SchoolSupport`, the sub-scores compare as claimed. -/
theorem c6_monotonicity_witness :
    (perf_component exB).ClassSize ≤ (perf_component exA).ClassSize ∧
    (perf_component exB).Workload ≤ (perf_component exA).Workload ∧
    (perf_component exA).Attendance ≤ (perf_component exB).Attendance ∧
    (perf_component exA).SchoolSupport ≤ (perf_component exB).SchoolSupport :=
  ⟨(c6_monotonicity exA exB).1 (by norm_num [exA, exB]),
   (c6_monotonicity exA exB).2.1 (by norm_num [exA, exB]),
   (c6_monotonicity exA exB).2.2.1 (by norm_num [exA, exB]),
   (c6_monotonicity exA exB).2.2.2 (by norm_num [exA, exB])⟩

/-- If every weight key is present in the sub-score mapping, the numerator
generator of `weighted_score` returns exactly the weighted sum that
`weighted_value` computes. -/
theorem sumProducts_ok_of_present (c : List (String × ℝ)) :
    ∀ w : List (String × ℝ), (∀ p ∈ w, (List.lookup p.1 c).isSome) →
      sumProducts c w =
        Except.ok ((w.map (fun p => (List.lookup p.1 c).getD 0 * p.2)).sum) := by
  intro w
  induction w with
  | nil => intro _; simp [sumProducts]
  | cons p rest ih =>
    intro h
    obtain ⟨k, wt⟩ := p
    have hk := h (k, wt) (List.mem_cons_self _ _)
    obtain ⟨x, hx⟩ := Option.isSome_iff_exists.mp hk
    have hn := ih (fun q hq => h q (List.mem_cons_of_mem _ hq))
    simp [sumProducts, hx, hn]

/-- If some weight key is missing from the sub-score mapping, the numerator
generator of `weighted_score` raises `KeyError`. -/
theorem sumProducts_keyError (c : List (String × ℝ)) :
    ∀ w : List (String × ℝ), (∃ p ∈ w, List.lookup p.1 c = none) →
      sumProducts c w = Except.error PyErr.keyError := by
  intro w
  induction w with
  | nil => intro h; simp at h
  | cons p rest ih =>
    intro h
    obtain ⟨k, wt⟩ := p
    cases hx : List.lookup k c with
    | none => simp [sumProducts, hx]
    | some x =>
      obtain ⟨q, hq, hnone⟩ := h
      rcases List.mem_cons.mp hq with h1 | h2
      · subst h1
        have hnone2 : List.lookup k c = none := hnone
        rw [hnone2] at hx
        simp at hx
      · have hr := ih ⟨q, h2, hnone⟩
        simp [sumProducts, hx, hr]

/-- A missing weight key makes `weighted_score` raise `KeyError`: the
numerator generator is evaluated before the division. -/
theorem weighted_score_keyError (c w : List (String × ℝ))
    (h : ∃ p ∈ w, List.lookup p.1 c = none) :
    weighted_score c w = Except.error PyErr.keyError := by
  have hs := sumProducts_keyError c w h
  unfold weighted_score
  rw [hs]

/-- Counterexample to C2 as stated: with sub-scores {A: 80, B: 50} and
weights {A: 0, B: 0} (zero total weight), `weighted_score` raises
`ZeroDivisionError`; it does not fall back to a denominator of 1 and return
the composite 0. -/
theorem c2_counterexample :
    weighted_score [("A", (80:ℝ)), ("B", 50)] [("A", 0), ("B", 0)] =
      Except.error PyErr.zeroDivisionError ∧
    weighted_score [("A", (80:ℝ)), ("B", 50)] [("A", 0), ("B", 0)] ≠
      Except.ok 0 := by
  have h : weighted_score [("A", (80:ℝ)), ("B", 50)] [("A", 0), ("B", 0)] =
      Except.error PyErr.zeroDivisionError := by
    show (if totalWeight [("A", (0:ℝ)), ("B", 0)] = 0 then _ else _) = _
    rw [if_pos]
    show (0:ℝ) + (0 + 0) = 0
    norm_num
  exact ⟨h, by rw [h]; simp⟩

/-- Claim C2 (amended): when the total weight is 0 (and every weight key is
present, so the numerator generator does not raise `KeyError` first),
`weighted_score` raises `ZeroDivisionError`; there is no fallback
denominator of 1 in the code. -/
theorem c2_zero_weight_amended (c w : List (String × ℝ))
    (hkeys : ∀ p ∈ w, (List.lookup p.1 c).isSome)
    (h0 : totalWeight w = 0) :
    weighted_score c w = Except.error PyErr.zeroDivisionError := by
  have hn := sumProducts_ok_of_present c w hkeys
  unfold weighted_score
  rw [hn]
  show (if totalWeight w = 0 then _ else _) = _
  rw [if_pos h0]

/-- Witness for the amended C2 at sub-scores {X: 80} and weights {X: 0}. -/
theorem c2_zero_weight_amended_witness :
    (List.lookup "X" [("X", (80:ℝ))]).isSome = true ∧
    totalWeight [("X", (0:ℝ))] = 0 ∧
    weighted_score [("X", (80:ℝ))] [("X", 0)] =
      Except.error PyErr.zeroDivisionError := by
  have hk : ∀ p ∈ [("X", (0:ℝ))], (List.lookup p.1 [("X", (80:ℝ))]).isSome := by
    intro p hp
    simp only [List.mem_singleton] at hp
    subst hp
    rfl
  have h0 : totalWeight [("X", (0:ℝ))] = 0 := by
    show (0:ℝ) + 0 = 0
    norm_num
  exact ⟨rfl, h0, c2_zero_weight_amended _ _ hk h0⟩

/-- Counterexample to C3 as stated: the weights mapping {A: 0} satisfies the
claim precondition (its only key is present in the sub-score mapping
{A: 50}), yet `weighted_score` still raises — `ZeroDivisionError`, because
the total weight is 0. Moreover the code has no `ConfigurationError`: a
missing key ({B: 2} against {A: 50}) surfaces as a `KeyError`. -/
theorem c3_counterexample :
    (List.lookup "A" [("A", (50:ℝ))]).isSome = true ∧
    weighted_score [("A", (50:ℝ))] [("A", 0)] =
      Except.error PyErr.zeroDivisionError ∧
    weighted_score [("A", (50:ℝ))] [("B", 2)] = Except.error PyErr.keyError := by
  refine ⟨rfl, ?_, rfl⟩
  show (if totalWeight [("A", (0:ℝ))] = 0 then _ else _) = _
  rw [if_pos]
  show (0:ℝ) + 0 = 0
  norm_num

/-- Claim C3 (amended): a weights key missing from the sub-score mapping
makes `weighted_score` raise `KeyError` (the Python dict-indexing error; the
code defines no `ConfigurationError`), and when every weights key is present
AND the total weight is nonzero, `weighted_score` raises nothing and returns
the weighted composite `weighted_value`. -/
theorem c3_config_amended (c w : List (String × ℝ)) :
    ((∃ p ∈ w, List.lookup p.1 c = none) →
      weighted_score c w = Except.error PyErr.keyError) ∧
    ((∀ p ∈ w, (List.lookup p.1 c).isSome) → totalWeight w ≠ 0 →
      weighted_score c w = Except.ok (weighted_value c w)) := by
  constructor
  · exact weighted_score_keyError c w
  · intro hkeys h0
    have hn := sumProducts_ok_of_present c w hkeys
    unfold weighted_score weighted_value
    rw [hn]
    show (if totalWeight w = 0 then _ else _) = _
    rw [if_neg h0]

/-- Witness for the amended C3: a missing key raises `KeyError`; with the key
present and weight total 2, the call returns the composite value. -/
theorem c3_config_amended_witness :
    weighted_score [("A", (50:ℝ))] [("C", 1)] = Except.error PyErr.keyError ∧
    weighted_score [("A", (50:ℝ))] [("A", 2)] =
      Except.ok (weighted_value [("A", (50:ℝ))] [("A", 2)]) := by
  refine ⟨(c3_config_amended _ _).1 ⟨("C", 1), List.mem_singleton.mpr rfl, rfl⟩,
    (c3_config_amended _ _).2 ?_ ?_⟩
  · intro p hp
    simp only [List.mem_singleton] at hp
    subst hp
    rfl
  · show ¬ ((2:ℝ) + 0 = 0)
    norm_num

/-- Scaling every weight by `a` scales the weight total by `a`. -/
theorem totalWeight_scale (a : ℝ) (w : List (String × ℝ)) :
    totalWeight (scaleWeights a w) = a * totalWeight w := by
  induction w with
  | nil => simp [totalWeight, scaleWeights]
  | cons p rest ih =>
    simp only [totalWeight, scaleWeights, List.map_cons, List.sum_cons] at ih ⊢
    rw [ih]
    ring

/-- Scaling every weight by `a` scales the numerator sum by `a` and leaves
the `KeyError` behaviour unchanged. -/
theorem sumProducts_scale (c : List (String × ℝ)) (a : ℝ) :
    ∀ w : List (String × ℝ),
      sumProducts c (scaleWeights a w) =
        Except.map (fun n => a * n) (sumProducts c w) := by
  intro w
  induction w with
  | nil => simp [sumProducts, scaleWeights, Except.map]
  | cons p rest ih =>
    obtain ⟨k, wt⟩ := p
    have hsc : scaleWeights a ((k, wt) :: rest) = (k, a * wt) :: scaleWeights a rest := by
      simp [scaleWeights]
    rw [hsc]
    cases hx : List.lookup k c with
    | none => simp [sumProducts, hx, Except.map]
    | some x =>
      cases hs : sumProducts c rest with
      | error e =>
        rw [hs] at ih
        simp [sumProducts, hx, hs, ih, Except.map]
      | ok n =>
        rw [hs] at ih
        simp only [sumProducts, hx, hs, ih, Except.map]
        exact congrArg Except.ok (by ring)

/-- Claim C7: for every sub-score mapping, every weights mapping with
positive total weight, and every positive constant `a`, the result of
`weighted_score` with all weights scaled by `a` equals the result with the
original weights. -/
theorem c7_scale_invariance (c w : List (String × ℝ)) (a : ℝ)
    (ha : 0 < a) (hw : 0 < totalWeight w) :
    weighted_score c (scaleWeights a w) = weighted_score c w := by
  unfold weighted_score
  rw [sumProducts_scale c a w, totalWeight_scale a w]
  cases hs : sumProducts c w with
  | error e => rfl
  | ok n =>
    show (if a * totalWeight w = 0 then _ else _) =
      (if totalWeight w = 0 then _ else _)
    rw [if_neg (mul_ne_zero (ne_of_gt ha) (ne_of_gt hw)), if_neg (ne_of_gt hw),
      mul_div_mul_left _ _ (ne_of_gt ha)]

/-- Witness for C7: doubling the single weight {A: 1} (total 1 > 0) leaves
the composite of the sub-scores {A: 50} unchanged. -/
theorem c7_scale_invariance_witness :
    (0:ℝ) < 2 ∧ 0 < totalWeight [("A", (1:ℝ))] ∧
    weighted_score [("A", (50:ℝ))] (scaleWeights 2 [("A", 1)]) =
      weighted_score [("A", (50:ℝ))] [("A", 1)] :=
  ⟨by norm_num,
   by show (0:ℝ) < 1 + 0; norm_num,
   c7_scale_invariance _ _ 2 (by norm_num) (by show (0:ℝ) < 1 + 0; norm_num)⟩

/-- The app-level call `weighted_score(component, {k: 1 for k in vals})` is
the unweighted mean of the six sub-scores. -/
theorem weighted_value_toPairs (s : Metrics ℝ) :
    weighted_value s.toPairs appWeights =
      (s.StudyHours + s.SleepHours + s.Attendance + s.ClassSize +
        s.SchoolSupport + s.Workload) / 6 := by
  have h : weighted_value s.toPairs appWeights =
      (s.StudyHours * 1 + (s.SleepHours * 1 + (s.Attendance * 1 + (s.ClassSize * 1 +
        (s.SchoolSupport * 1 + (s.Workload * 1 + 0)))))) /
      ((1 : ℝ) + (1 + (1 + (1 + (1 + (1 + 0)))))) := rfl
  rw [h]
  norm_num
  ring

/-- Embedding fidelity: on the app's calls (all six keys present, total
weight 6), `weighted_score` succeeds and returns `weighted_value`, the value
the pure app-level definitions use. -/
theorem weighted_score_app (s : Metrics ℝ) :
    weighted_score s.toPairs appWeights =
      Except.ok (weighted_value s.toPairs appWeights) := by
  show (if totalWeight appWeights = 0 then _ else _) = _
  rw [if_neg]
  · rfl
  · show ¬ ((1:ℝ) + (1 + (1 + (1 + (1 + (1 + 0))))) = 0)
    norm_num

/-- The performance composite lies in [0, 100]. -/
theorem perf_score_mem (v : Metrics ℝ) : 0 ≤ perf_score v ∧ perf_score v ≤ 100 := by
  obtain ⟨⟨a1, a2⟩, ⟨b1, b2⟩, ⟨d1, d2⟩, ⟨e1, e2⟩, ⟨f1, f2⟩, ⟨g1, g2⟩⟩ := perf_bounds v
  unfold perf_score
  rw [weighted_value_toPairs]
  constructor
  · apply div_nonneg _ (by norm_num)
    linarith
  · rw [div_le_iff₀ (by norm_num : (0:ℝ) < 6)]
    linarith

/-- The stress composite lies in [0, 100]. -/
theorem stress_score_mem (v : Metrics ℝ) : 0 ≤ stress_score v ∧ stress_score v ≤ 100 := by
  obtain ⟨⟨a1, a2⟩, ⟨b1, b2⟩, ⟨d1, d2⟩, ⟨e1, e2⟩, ⟨f1, f2⟩, ⟨g1, g2⟩⟩ := stress_bounds v
  unfold stress_score
  rw [weighted_value_toPairs]
  constructor
  · apply div_nonneg _ (by norm_num)
    linarith
  · rw [div_le_iff₀ (by norm_num : (0:ℝ) < 6)]
    linarith

/-- Claim C8: the overall score reported to the user is exactly the minimum
of the performance and stress composites; it lies in [0, 100] (both
composites always do) and never exceeds either composite. -/
theorem c8_overall_min (v : Metrics ℝ) :
    overall v = min (perf_score v) (stress_score v) ∧
    0 ≤ overall v ∧ overall v ≤ 100 ∧
    overall v ≤ perf_score v ∧ overall v ≤ stress_score v := by
  obtain ⟨hp0, hp1⟩ := perf_score_mem v
  obtain ⟨hs0, hs1⟩ := stress_score_mem v
  exact ⟨rfl, le_min hp0 hs0, le_trans (min_le_left _ _) hp1,
    min_le_left _ _, min_le_right _ _⟩

/-- Counterexample to C4 as stated: scoring a NaN `StudyHours` value does not
return the sub-score 0 — `np.clip` propagates NaN, so the sub-score is NaN
(`none` in the embedding), not 0. -/
theorem c4_counterexample :
    (perf_component_nan nanInput).StudyHours = none ∧
    (perf_component_nan nanInput).StudyHours ≠ some 0 :=
  ⟨rfl, by intro h; rw [show (perf_component_nan nanInput).StudyHours = none from rfl] at h; simp at h⟩

/-- Claim C4 (amended): for every metric, scoring a NaN value for that
metric yields a NaN sub-score for it, because NaN propagates through the
arithmetic, `np.exp` and `np.clip` of `perf_component`; the code never maps
NaN to 0. -/
theorem c4_nan_amended (v : Metrics (Option ℝ)) :
    (v.StudyHours = none → (perf_component_nan v).StudyHours = none) ∧
    (v.SleepHours = none → (perf_component_nan v).SleepHours = none) ∧
    (v.Attendance = none → (perf_component_nan v).Attendance = none) ∧
    (v.ClassSize = none → (perf_component_nan v).ClassSize = none) ∧
    (v.SchoolSupport = none → (perf_component_nan v).SchoolSupport = none) ∧
    (v.Workload = none → (perf_component_nan v).Workload = none) := by
  refine ⟨fun h => ?_, fun h => ?_, fun h => ?_, fun h => ?_, fun h => ?_, fun h => ?_⟩ <;>
    simp [perf_component_nan, h]

/-- Witness for the amended C4 at the input all six of whose metric values
are NaN: all six sub-scores come out NaN. -/
theorem c4_nan_amended_witness :
    nanAll.StudyHours = none ∧
    (perf_component_nan nanAll).StudyHours = none ∧
    (perf_component_nan nanAll).SleepHours = none ∧
    (perf_component_nan nanAll).Attendance = none ∧
    (perf_component_nan nanAll).ClassSize = none ∧
    (perf_component_nan nanAll).SchoolSupport = none ∧
    (perf_component_nan nanAll).Workload = none :=
  ⟨rfl, (c4_nan_amended nanAll).1 rfl, (c4_nan_amended nanAll).2.1 rfl,
   (c4_nan_amended nanAll).2.2.1 rfl, (c4_nan_amended nanAll).2.2.2.1 rfl,
   (c4_nan_amended nanAll).2.2.2.2.1 rfl, (c4_nan_amended nanAll).2.2.2.2.2 rfl⟩

end SSPI
